import Mathlib

/-!
Verification development for the cosign artifact-verification core.

Part 1 embeds the signature-collection enumerator from
`pkg/oci/layout/signatures.go` (`sigs.Get`): the OCI data model
(hash, descriptor, manifest, image handle), the fixed layer cap, and the
enumeration loop that resolves each manifest layer by digest and wraps it
as a signing artifact.

Part 2 models the attestation payload pipeline
(`AttestationToPayloadJSON`) togther with the JSON and base64 machinery it
relies on, and proves the spec's testable properties about it.
-/

namespace Cosign

/-- Content hash of an OCI blob: algorithm plus hex digest
(embedding of `v1.Hash`). -/
structure Hash where
  algorithm : String
  hex : String
deriving DecidableEq, Repr

/-- An OCI layer descriptor as it appears in a manifest: the media type and
digest that `sigs.Get` reads off each entry (embedding of `v1.Descriptor`,
restricted to the fields the enumerator consults). -/
structure Descriptor where
  mediaType : String
  digest : Hash
  annotations : List (String × String)
deriving DecidableEq, Repr

/-- An OCI image manifest: the ordered sequence of layer descriptors
(embedding of `v1.Manifest`, restricted to the `Layers` field). -/
structure Manifest where
  layers : List Descriptor
deriving DecidableEq, Repr

/-- A resolved content layer. Its content is opaque to the enumerator
(embedding of `v1.Layer` as consumed by `signature.New`). -/
structure Layer where
  content : String
deriving DecidableEq, Repr

/-- Errors surfaced by the enumerator: either an error propagated verbatim
from the storage collaborator, or the distinct layer-count-exceeded error
carrying the observed count and the cap. -/
inductive OCIError where
  | external (msg : String)
  | maxLayersExceeded (layers : Int) (max : Int)
deriving DecidableEq, Repr

/-- Modelled from the spec: `oci.NewMaxLayersExceeded` (its definition lives
outside the provided sources) builds the distinct, named error carrying both
the observed layer count and the cap. -/
def NewMaxLayersExceeded (layers : Int) (max : Int) : OCIError :=
  OCIError.maxLayersExceeded layers max

/-- A manifest-bearing image handle: the two capabilities of `v1.Image`
that `sigs.Get` uses, `Manifest()` and `LayerByDigest()`, each fallible. -/
structure Image where
  Manifest : Except OCIError Manifest
  LayerByDigest : Hash → Except OCIError Layer

/-- A signing artifact produced by the enumerator: an underlying resolved
layer together with the manifest descriptor whose metadata it carries. -/
structure Signature where
  layer : Layer
  descriptor : Descriptor
deriving DecidableEq, Repr

/-- Modelled from the spec: `signature.New` (in
`pkg/oci/internal/signature`, outside the provided sources) wraps a resolved
layer as a Signing Artifact carrying that descriptor's metadata
(digest, media type, annotations). -/
def signature.New (l : Layer) (desc : Descriptor) : Signature :=
  { layer := l, descriptor := desc }

/-- The artifact's digest comes from the manifest descriptor it was built
with. -/
def Signature.Digest (s : Signature) : Hash :=
  s.descriptor.digest

/-- The artifact's media type comes from the manifest descriptor it was
built with. -/
def Signature.MediaType (s : Signature) : String :=
  s.descriptor.mediaType

/-- The hard layer cap, `const maxLayers = 1000` in
`pkg/oci/layout/signatures.go`. -/
def maxLayers : Int := 1000

/-- The enumeration loop of `sigs.Get`: for each remaining descriptor,
resolve the layer by digest (aborting on the first failure) and wrap it via
`signature.New`, preserving manifest order. -/
def sigs.getLayers (s : Image) : List Descriptor → Except OCIError (List Signature)
  | [] => Except.ok []
  | desc :: rest => do
    let l ← s.LayerByDigest desc.digest
    let tail ← sigs.getLayers s rest
    pure (signature.New l desc :: tail)

/-- Embedding of `sigs.Get` from `pkg/oci/layout/signatures.go`: read the
manifest, reject with the layer-count-exceeded error when the layer count
exceeds the cap, otherwise resolve every layer in manifest order. -/
def sigs.Get (s : Image) : Except OCIError (List Signature) := do
  let manifest ← s.Manifest
  let numLayers : Int := manifest.layers.length
  if numLayers > maxLayers then
    throw (NewMaxLayersExceeded numLayers maxLayers)
  else
    sigs.getLayers s manifest.layers

/-- Boolean success test for an `Except` result, used to state resolution
hypotheses decidably. -/
def exceptIsOk : Except ε α → Bool
  | Except.ok _ => true
  | Except.error _ => false

theorem exceptIsOk_true {e : Except ε α} (h : exceptIsOk e = true) :
    ∃ a, e = Except.ok a := by
  cases e with
  | ok a => exact ⟨a, rfl⟩
  | error _ => simp [exceptIsOk] at h

theorem exceptIsOk_false {e : Except ε α} (h : exceptIsOk e = false) :
    ∃ msg, e = Except.error msg := by
  cases e with
  | ok a => simp [exceptIsOk] at h
  | error msg => exact ⟨msg, rfl⟩

/-- When every descriptor of the list resolves, the enumeration loop
succeeds and yields one artifact per descriptor, in order, carrying that
descriptor's digest and media type. -/
theorem sigs.getLayers_ok (s : Image) (descs : List Descriptor)
    (h : ∀ d ∈ descs, exceptIsOk (s.LayerByDigest d.digest) = true) :
    ∃ arts, sigs.getLayers s descs = Except.ok arts ∧
      arts.length = descs.length ∧
      ∀ i (hi : i < arts.length) (hd : i < descs.length),
        (arts.get ⟨i, hi⟩).Digest = (descs.get ⟨i, hd⟩).digest ∧
        (arts.get ⟨i, hi⟩).MediaType = (descs.get ⟨i, hd⟩).mediaType := by
  induction descs with
  | nil =>
    refine ⟨[], rfl, rfl, ?_⟩
    intro i hi hd
    exact absurd hi (by simp)
  | cons d rest ih =>
    obtain ⟨l, hl⟩ := exceptIsOk_true (h d (by simp))
    obtain ⟨arts, ha, hlen, hpt⟩ := ih (fun d' hd' => h d' (by simp [hd']))
    refine ⟨signature.New l d :: arts, ?_, by simp [hlen], ?_⟩
    · simp only [sigs.getLayers, hl, ha]
      rfl
    · intro i hi hd
      cases i with
      | zero => simp [Signature.Digest, Signature.MediaType, signature.New]
      | succ n =>
        exact hpt n (Nat.lt_of_succ_lt_succ (by simpa using hi))
          (Nat.lt_of_succ_lt_succ (by simpa using hd))

/-- If some descriptor in the list fails to resolve, the enumeration loop
returns an error (the loop aborts on the first failure). -/
theorem sigs.getLayers_err (s : Image) (descs : List Descriptor)
    (h : ∃ d ∈ descs, exceptIsOk (s.LayerByDigest d.digest) = false) :
    ∃ e, sigs.getLayers s descs = Except.error e := by
  induction descs with
  | nil => simp at h
  | cons d₀ rest ih =>
    obtain ⟨d, hd, hfail⟩ := h
    cases hres : s.LayerByDigest d₀.digest with
    | error e => exact ⟨e, by simp only [sigs.getLayers, hres]; rfl⟩
    | ok l =>
      have hdrest : d ∈ rest := by
        rcases List.mem_cons.1 hd with h0 | h0
        · subst h0
          rw [hres] at hfail
          simp [exceptIsOk] at hfail
        · exact h0
      obtain ⟨e, he⟩ := ih ⟨d, hdrest, hfail⟩
      exact ⟨e, by simp only [sigs.getLayers, hres, he]; rfl⟩

/-- Claim C1: for every manifest whose layer count exceeds 1000, the
enumerator's `Get` returns the distinct layer-count-exceeded error carrying
both the observed layer count and the cap, and returns no artifacts. -/
theorem claim_C1 (s : Image) (m : Manifest)
    (hm : s.Manifest = Except.ok m)
    (hn : (m.layers.length : Int) > 1000) :
    sigs.Get s =
      Except.error (OCIError.maxLayersExceeded (m.layers.length : Int) 1000) ∧
    ∀ arts, sigs.Get s ≠ Except.ok arts := by
  have hget : sigs.Get s =
      Except.error (OCIError.maxLayersExceeded (m.layers.length : Int) 1000) := by
    unfold sigs.Get
    rw [hm]
    show (if ((m.layers.length : Int) > maxLayers) then _ else _ : Except _ _) = _
    rw [if_pos (by simpa [maxLayers] using hn)]
    rfl
  exact ⟨hget, fun arts hok => by rw [hget] at hok; exact Except.noConfusion hok⟩

def c1Desc : Descriptor :=
  { mediaType := "application/vnd.dev.cosign.simplesigning.v1+json"
    digest := { algorithm := "sha256", hex := "aa" }
    annotations := [] }

def c1Image : Image :=
  { Manifest := Except.ok { layers := List.replicate 1001 c1Desc }
    LayerByDigest := fun _ => Except.ok { content := "sig" } }

/-- Claim C1 witness: a concrete image with 1001 layers is rejected with
the layer-count-exceeded error carrying the count 1001 and the cap 1000. -/
theorem claim_C1_witness :
    sigs.Get c1Image =
      Except.error (OCIError.maxLayersExceeded 1001 1000) ∧
    ∀ arts, sigs.Get c1Image ≠ Except.ok arts := by
  have h := claim_C1 c1Image { layers := List.replicate 1001 c1Desc } rfl
    (by norm_num)
  rw [List.length_replicate, Nat.cast_ofNat] at h
  exact h

/-- Claim C2: for every manifest with layer count at most 1000 all of whose
layers resolve successfully, the enumerator's `Get` returns exactly one
Signing Artifact per manifest layer, in manifest layer order, each carrying
the corresponding layer descriptor's digest and media type. -/
theorem claim_C2 (s : Image) (m : Manifest)
    (hm : s.Manifest = Except.ok m)
    (hcount : (m.layers.length : Int) ≤ 1000)
    (hres : ∀ d ∈ m.layers, exceptIsOk (s.LayerByDigest d.digest) = true) :
    ∃ arts, sigs.Get s = Except.ok arts ∧
      arts.length = m.layers.length ∧
      ∀ i (hi : i < arts.length) (hd : i < m.layers.length),
        (arts.get ⟨i, hi⟩).Digest = (m.layers.get ⟨i, hd⟩).digest ∧
        (arts.get ⟨i, hi⟩).MediaType = (m.layers.get ⟨i, hd⟩).mediaType := by
  obtain ⟨arts, ha, hlen, hpt⟩ := sigs.getLayers_ok s m.layers hres
  refine ⟨arts, ?_, hlen, hpt⟩
  unfold sigs.Get
  rw [hm]
  show (if ((m.layers.length : Int) > maxLayers) then _ else _ : Except _ _) = _
  rw [if_neg (by simp only [maxLayers, gt_iff_lt, not_lt]; exact hcount)]
  exact ha

def c2d1 : Descriptor :=
  { mediaType := "media/one", digest := { algorithm := "sha256", hex := "01" }
    annotations := [] }

def c2d2 : Descriptor :=
  { mediaType := "media/two", digest := { algorithm := "sha256", hex := "02" }
    annotations := [] }

def c2Image : Image :=
  { Manifest := Except.ok { layers := [c2d1, c2d2] }
    LayerByDigest := fun h => Except.ok { content := h.hex } }

/-- Claim C2 witness: on a concrete two-layer image whose layers all
resolve, `Get` succeeds with one artifact per layer in order, each carrying
its descriptor's digest and media type. -/
theorem claim_C2_witness :
    ∃ arts, sigs.Get c2Image = Except.ok arts ∧
      arts.length = [c2d1, c2d2].length ∧
      ∀ i (hi : i < arts.length) (hd : i < [c2d1, c2d2].length),
        (arts.get ⟨i, hi⟩).Digest = ([c2d1, c2d2].get ⟨i, hd⟩).digest ∧
        (arts.get ⟨i, hi⟩).MediaType = ([c2d1, c2d2].get ⟨i, hd⟩).mediaType :=
  claim_C2 c2Image { layers := [c2d1, c2d2] } rfl (by norm_num) (by decide)

/-- Claim C3: for every manifest, if reading the manifest fails or resolving
any single layer by digest fails, the enumerator's `Get` returns an error
and no artifact collection at all — never a truncated partial list. -/
theorem claim_C3 (s : Image)
    (h : (∃ e, s.Manifest = Except.error e) ∨
      (∃ m, s.Manifest = Except.ok m ∧
        ∃ d ∈ m.layers, exceptIsOk (s.LayerByDigest d.digest) = false)) :
    ∃ e, sigs.Get s = Except.error e ∧
      ∀ arts, sigs.Get s ≠ Except.ok arts := by
  have herr : ∃ e, sigs.Get s = Except.error e := by
    rcases h with ⟨e, he⟩ | ⟨m, hm, hfail⟩
    · exact ⟨e, by unfold sigs.Get; rw [he]; rfl⟩
    · by_cases hbig : (m.layers.length : Int) > maxLayers
      · refine ⟨NewMaxLayersExceeded (m.layers.length : Int) maxLayers, ?_⟩
        unfold sigs.Get
        rw [hm]
        show (if ((m.layers.length : Int) > maxLayers) then _ else _ : Except _ _) = _
        rw [if_pos hbig]
        rfl
      · obtain ⟨e, he⟩ := sigs.getLayers_err s m.layers hfail
        refine ⟨e, ?_⟩
        unfold sigs.Get
        rw [hm]
        show (if ((m.layers.length : Int) > maxLayers) then _ else _ : Except _ _) = _
        rw [if_neg hbig]
        exact he
  obtain ⟨e, he⟩ := herr
  exact ⟨e, he, fun arts hok => by rw [he] at hok; exact Except.noConfusion hok⟩

def c3bad : Descriptor :=
  { mediaType := "media/bad", digest := { algorithm := "sha256", hex := "ff" }
    annotations := [] }

def c3Image : Image :=
  { Manifest := Except.ok { layers := [c2d1, c3bad, c2d2] }
    LayerByDigest := fun h =>
      if h.hex = "ff" then Except.error (OCIError.external "missing blob")
      else Except.ok { content := h.hex } }

/-- Claim C3 witness: on a concrete three-layer image whose middle layer
fails to resolve, `Get` returns an error and never an artifact list. -/
theorem claim_C3_witness :
    ∃ e, sigs.Get c3Image = Except.error e ∧
      ∀ arts, sigs.Get c3Image ≠ Except.ok arts :=
  claim_C3 c3Image
    (Or.inr ⟨{ layers := [c2d1, c3bad, c2d2] }, rfl, by decide⟩)

/-!
Part 2: the attestation payload pipeline. The implementation of
`AttestationToPayloadJSON` (in `pkg/policy/attestation.go`) is not among the
provided sources — only its tests in `pkg/policy/attestation_test.go` are —
so the pipeline and the decoding machinery it depends on are modelled from
the spec (§4.5, §6, §7), faithful to the behavior the tests pin down.
-/

/-- JSON values, as produced by the structural JSON decoder. Numeric
literals are kept as their source text: no field of the envelope or the
statement interprets a number's value. -/
inductive JSON where
  | null
  | bool (b : Bool)
  | num (lit : String)
  | str (s : String)
  | arr (elems : List JSON)
  | obj (fields : List (String × JSON))

/-- The opening curly bracket character. -/
def lcurly : Char := Char.ofNat 123

/-- The closing curly bracket character. -/
def rcurly : Char := Char.ofNat 125

/-- JSON insignificant whitespace. -/
def isJSONWs (c : Char) : Bool :=
  c = ' ' || c = '\t' || c = '\n' || c = '\r'

/-- Drop leading JSON whitespace. -/
def skipWs : List Char → List Char
  | [] => []
  | c :: rest => if isJSONWs c then skipWs rest else c :: rest

/-- Value of a hexadecimal digit, if the character is one. -/
def hexDigitVal (c : Char) : Option Nat :=
  if '0' ≤ c ∧ c ≤ '9' then some (c.toNat - 48)
  else if 'a' ≤ c ∧ c ≤ 'f' then some (c.toNat - 87)
  else if 'A' ≤ c ∧ c ≤ 'F' then some (c.toNat - 55)
  else none

/-- Decode the body of a JSON string literal (the opening quote already
consumed): returns the decoded characters and the input after the closing
quote. Handles the JSON escapes; rejects unescaped control characters and
unterminated literals, mirroring the strictness of `encoding/json`. -/
def parseStringBody : List Char → Except String (List Char × List Char)
  | [] => Except.error "unexpected end of input in string literal"
  | c :: rest =>
    if c = '"' then Except.ok ([], rest)
    else if c = '\\' then
      match rest with
      | [] => Except.error "unexpected end of input in string escape"
      | e :: rest2 =>
        if e = '"' ∨ e = '\\' ∨ e = '/' then
          (fun r => (e :: r.1, r.2)) <$> parseStringBody rest2
        else if e = 'n' then (fun r => ('\n' :: r.1, r.2)) <$> parseStringBody rest2
        else if e = 't' then (fun r => ('\t' :: r.1, r.2)) <$> parseStringBody rest2
        else if e = 'r' then (fun r => ('\r' :: r.1, r.2)) <$> parseStringBody rest2
        else if e = 'b' then
          (fun r => (Char.ofNat 8 :: r.1, r.2)) <$> parseStringBody rest2
        else if e = 'f' then
          (fun r => (Char.ofNat 12 :: r.1, r.2)) <$> parseStringBody rest2
        else if e = 'u' then
          match rest2 with
          | h1 :: h2 :: h3 :: h4 :: rest3 =>
            match hexDigitVal h1, hexDigitVal h2, hexDigitVal h3, hexDigitVal h4 with
            | some v1, some v2, some v3, some v4 =>
              (fun r => (Char.ofNat (v1 * 4096 + v2 * 256 + v3 * 16 + v4) :: r.1, r.2)) <$>
                parseStringBody rest3
            | _, _, _, _ => Except.error "invalid unicode escape in string literal"
          | _ => Except.error "invalid unicode escape in string literal"
        else Except.error "invalid escape character in string literal"
    else if c.toNat < 32 then
      Except.error "invalid control character in string literal"
    else (fun r => (c :: r.1, r.2)) <$> parseStringBody rest

/-- Longest prefix of decimal digits. -/
def spanDigits : List Char → (List Char × List Char)
  | [] => ([], [])
  | c :: rest =>
    if c.isDigit then
      let r := spanDigits rest
      (c :: r.1, r.2)
    else ([], c :: rest)

/-- Consume a JSON numeric token (sign, integer part, optional fraction and
exponent); the value itself is never interpreted. -/
def parseNumberToken (input : List Char) : Except String (List Char × List Char) :=
  let (sign, rest0) :=
    match input with
    | '-' :: r => (['-'], r)
    | _ => (([] : List Char), input)
  match spanDigits rest0 with
  | ([], _) => Except.error "invalid character looking for beginning of value"
  | (ds, rest1) =>
    let step2 : Except String (List Char × List Char) :=
      match rest1 with
      | '.' :: r =>
        match spanDigits r with
        | ([], _) => Except.error "invalid number literal"
        | (fs, rest2) => Except.ok ('.' :: fs, rest2)
      | _ => Except.ok ([], rest1)
    match step2 with
    | Except.error e => Except.error e
    | Except.ok (frac, rest2) =>
      match rest2 with
      | 'e' :: r =>
        let (es, rest3) :=
          match r with
          | '+' :: r2 => (['e', '+'], r2)
          | '-' :: r2 => (['e', '-'], r2)
          | _ => (['e'], r)
        match spanDigits rest3 with
        | ([], _) => Except.error "invalid number literal"
        | (xs, rest4) => Except.ok (sign ++ ds ++ frac ++ es ++ xs, rest4)
      | 'E' :: r =>
        let (es, rest3) :=
          match r with
          | '+' :: r2 => (['E', '+'], r2)
          | '-' :: r2 => (['E', '-'], r2)
          | _ => (['E'], r)
        match spanDigits rest3 with
        | ([], _) => Except.error "invalid number literal"
        | (xs, rest4) => Except.ok (sign ++ ds ++ frac ++ es ++ xs, rest4)
      | _ => Except.ok (sign ++ ds ++ frac, rest2)

mutual

/-- Decode one JSON value (leading whitespace allowed), returning it and the
unconsumed input. The fuel bounds recursion depth; the top-level entry point
supplies input length plus one, which no input can exhaust. -/
def parseValue : Nat → List Char → Except String (JSON × List Char)
  | 0, _ => Except.error "exceeded max depth"
  | Nat.succ fuel, input =>
    match skipWs input with
    | [] => Except.error "unexpected end of JSON input"
    | 't' :: 'r' :: 'u' :: 'e' :: rest => Except.ok (JSON.bool true, rest)
    | 'f' :: 'a' :: 'l' :: 's' :: 'e' :: rest => Except.ok (JSON.bool false, rest)
    | 'n' :: 'u' :: 'l' :: 'l' :: rest => Except.ok (JSON.null, rest)
    | '"' :: rest =>
      match parseStringBody rest with
      | Except.error e => Except.error e
      | Except.ok (cs, rest2) => Except.ok (JSON.str ⟨cs⟩, rest2)
    | c :: rest =>
      if c = lcurly then
        match skipWs rest with
        | c2 :: rest2 =>
          if c2 = rcurly then Except.ok (JSON.obj [], rest2)
          else
            match parseFieldsRest fuel (c2 :: rest2) with
            | Except.error e => Except.error e
            | Except.ok (fields, rest3) => Except.ok (JSON.obj fields, rest3)
        | [] => Except.error "unexpected end of JSON input"
      else if c = '[' then
        match skipWs rest with
        | ']' :: rest2 => Except.ok (JSON.arr [], rest2)
        | other =>
          match parseElemsRest fuel other with
          | Except.error e => Except.error e
          | Except.ok (elems, rest3) => Except.ok (JSON.arr elems, rest3)
      else
        match parseNumberToken (c :: rest) with
        | Except.error e => Except.error e
        | Except.ok (tok, rest2) => Except.ok (JSON.num ⟨tok⟩, rest2)

/-- Decode one or more comma-separated array elements followed by the
closing square bracket. -/
def parseElemsRest : Nat → List Char → Except String (List JSON × List Char)
  | 0, _ => Except.error "exceeded max depth"
  | Nat.succ fuel, input =>
    match parseValue fuel input with
    | Except.error e => Except.error e
    | Except.ok (v, rest) =>
      match skipWs rest with
      | ',' :: rest2 =>
        match parseElemsRest fuel rest2 with
        | Except.error e => Except.error e
        | Except.ok (vs, rest3) => Except.ok (v :: vs, rest3)
      | ']' :: rest2 => Except.ok ([v], rest2)
      | _ => Except.error "invalid character after array element"

/-- Decode one or more comma-separated `key : value` object members
followed by the closing curly bracket (leading whitespace of the key
already skipped). -/
def parseFieldsRest : Nat → List Char → Except String (List (String × JSON) × List Char)
  | 0, _ => Except.error "exceeded max depth"
  | Nat.succ fuel, input =>
    match input with
    | '"' :: rest =>
      match parseStringBody rest with
      | Except.error e => Except.error e
      | Except.ok (key, rest1) =>
        match skipWs rest1 with
        | ':' :: rest2 =>
          match parseValue fuel rest2 with
          | Except.error e => Except.error e
          | Except.ok (v, rest3) =>
            match skipWs rest3 with
            | ',' :: rest4 =>
              match parseFieldsRest fuel (skipWs rest4) with
              | Except.error e => Except.error e
              | Except.ok (fields, rest5) => Except.ok ((⟨key⟩, v) :: fields, rest5)
            | c :: rest4 =>
              if c = rcurly then Except.ok ([(⟨key⟩, v)], rest4)
              else Except.error "invalid character after object member"
            | [] => Except.error "unexpected end of JSON input"
        | _ => Except.error "expected colon after object key"
    | _ => Except.error "invalid character looking for beginning of object key string"

end

/-- Decode a whole JSON document: one value with nothing but whitespace
after it, mirroring `json.Unmarshal`. -/
def parseJSON (s : String) : Except String JSON :=
  match parseValue (s.data.length + 1) s.data with
  | Except.error e => Except.error e
  | Except.ok (v, rest) =>
    if (skipWs rest).isEmpty then Except.ok v
    else Except.error "invalid character after top-level value"

/-- Read a string-typed field out of a decoded JSON object the way
`json.Unmarshal` fills a `string` struct field: a later duplicate key wins,
an explicit `null` leaves the field unset, and a value of any other
non-string type is an unmarshal error. -/
def jsonStringField (fields : List (String × JSON)) (key : String) :
    Except String (Option String) :=
  fields.foldl
    (fun acc kv =>
      match acc with
      | Except.error e => Except.error e
      | Except.ok cur =>
        if kv.1 = key then
          match kv.2 with
          | JSON.str s => Except.ok (some s)
          | JSON.null => Except.ok cur
          | _ => Except.error ("cannot unmarshal value into string field " ++ key)
        else Except.ok cur)
    (Except.ok none)

/-- The attestation envelope: the two fields of the in-toto-shaped outer
wrapper that the pipeline consults (`payloadType`, base64 `payload`). An
absent field decodes to the empty string. -/
structure Envelope where
  payloadType : String
  payload : String
deriving DecidableEq, Repr

/-- Modelled from the spec (§4.5 step 2): unmarshal raw bytes as an
Attestation Envelope; any JSON-structural failure (empty input, truncated
JSON, wrong top-level shape) is a decode failure. -/
def unmarshalEnvelope (b : String) : Except String Envelope :=
  match parseJSON b with
  | Except.error e => Except.error e
  | Except.ok (JSON.obj fields) =>
    match jsonStringField fields "payloadType" with
    | Except.error e => Except.error e
    | Except.ok pt =>
      match jsonStringField fields "payload" with
      | Except.error e => Except.error e
      | Except.ok p =>
        Except.ok { payloadType := pt.getD "", payload := p.getD "" }
  | Except.ok _ => Except.error "cannot unmarshal non-object value into envelope"

/-- Index of a character in the standard base64 alphabet. -/
def base64Index (c : Char) : Option Nat :=
  if 'A' ≤ c ∧ c ≤ 'Z' then some (c.toNat - 65)
  else if 'a' ≤ c ∧ c ≤ 'z' then some (c.toNat - 71)
  else if '0' ≤ c ∧ c ≤ '9' then some (c.toNat + 4)
  else if c = '+' then some 62
  else if c = '/' then some 63
  else none

/-- The base64 failure message of `encoding/base64`, positioned at the
offending input byte. -/
def illegalBase64At (pos : Nat) : String :=
  "illegal base64 data at input byte " ++ toString pos

/-- Decode standard (padded) base64 four characters at a time, as
`base64.StdEncoding` does: every quantum is four characters, `=` padding may
only close the final quantum, and any illegal character, misplaced padding
or incomplete trailing quantum is an error naming the offending byte. -/
def base64DecodeQuads : Nat → List Char → Except String (List Nat)
  | _, [] => Except.ok []
  | pos, c1 :: c2 :: c3 :: c4 :: rest =>
    match base64Index c1 with
    | none => Except.error (illegalBase64At pos)
    | some i1 =>
      match base64Index c2 with
      | none => Except.error (illegalBase64At (pos + 1))
      | some i2 =>
        if c3 = '=' then
          if c4 = '=' then
            if rest.isEmpty then Except.ok [i1 * 4 + i2 / 16]
            else Except.error (illegalBase64At (pos + 4))
          else Except.error (illegalBase64At (pos + 3))
        else
          match base64Index c3 with
          | none => Except.error (illegalBase64At (pos + 2))
          | some i3 =>
            if c4 = '=' then
              if rest.isEmpty then
                Except.ok [i1 * 4 + i2 / 16, (i2 % 16) * 16 + i3 / 4]
              else Except.error (illegalBase64At (pos + 4))
            else
              match base64Index c4 with
              | none => Except.error (illegalBase64At (pos + 3))
              | some i4 =>
                match base64DecodeQuads (pos + 4) rest with
                | Except.error e => Except.error e
                | Except.ok bs =>
                  Except.ok ((i1 * 4 + i2 / 16) :: ((i2 % 16) * 16 + i3 / 4) ::
                    ((i3 % 4) * 64 + i4) :: bs)
  | pos, _ => Except.error (illegalBase64At pos)

/-- Decode a base64 string to its bytes with the standard padded
encoding. -/
def base64DecodeString (s : String) : Except String (List Nat) :=
  base64DecodeQuads 0 s.data

/-- View decoded bytes as text (the decoded statements handled here are
ASCII JSON). -/
def bytesToString (bs : List Nat) : String :=
  ⟨bs.map Char.ofNat⟩

/-- Canonical predicate-type URI for generic cosign provenance
(`attestation.CosignCustomProvenanceV01`). -/
def CosignCustomProvenanceV01 : String :=
  "https://cosign.sigstore.dev/attestation/v1"

/-- Canonical predicate-type URI for vulnerability-scan provenance
(`attestation.CosignVulnProvenanceV01`). -/
def CosignVulnProvenanceV01 : String :=
  "https://cosign.sigstore.dev/attestation/vuln/v1"

/-- Modelled from the spec (§3, §6): the Predicate Type Registry, a fixed
mapping from short logical names to canonical predicate-type URIs. -/
def predicateTypeMap : List (String × String) :=
  [("custom", CosignCustomProvenanceV01), ("vuln", CosignVulnProvenanceV01)]

/-- Modelled from the spec (§6): resolve a logical name through the
registry; unrecognized names pass through unchanged as the effective
predicate type. -/
def registryResolve (name : String) : String :=
  match predicateTypeMap.lookup name with
  | some uri => uri
  | none => name

/-- Modelled from the spec (§4.5 step 5): unmarshal the decoded statement
bytes far enough to read `predicateType`. The declared type counts as
present when it is a non-empty string. -/
def statementPredicateType (b : String) : Except String (Option String) :=
  match parseJSON b with
  | Except.error e => Except.error e
  | Except.ok (JSON.obj fields) =>
    match jsonStringField fields "predicateType" with
    | Except.error e => Except.error e
    | Except.ok (some d) => if d = "" then Except.ok none else Except.ok (some d)
    | Except.ok none => Except.ok none
  | Except.ok _ => Except.error "cannot unmarshal non-object value into statement"

/-- The minimal payload-provider capability consumed by the pipeline: just
`Payload() ([]byte, error)`. -/
structure PayloadProvider where
  Payload : Except String String

/-- A static in-memory signing artifact (§4.3): raw payload bytes plus an
optional pre-encoded signature string, no I/O. -/
structure StaticSignature where
  rawBytes : String
  base64Sig : String
deriving DecidableEq, Repr

/-- Modelled from the spec (§4.3): `static.NewSignature` builds a fully
formed artifact from the supplied bytes. -/
def static.NewSignature (payload : String) (b64Sig : String) :
    Except String StaticSignature :=
  Except.ok { rawBytes := payload, base64Sig := b64Sig }

/-- A static artifact's `Payload()` always succeeds and returns exactly the
supplied bytes (§4.3). -/
def StaticSignature.Payload (s : StaticSignature) : Except String String :=
  Except.ok s.rawBytes

/-- A static artifact used where only the payload-provider capability is
required (interface substitutability, §4.1/§6). -/
def StaticSignature.toProvider (s : StaticSignature) : PayloadProvider :=
  { Payload := s.Payload }

/-- Modelled from the spec: `AttestationToPayloadJSON`
(`pkg/policy/attestation.go` is not among the provided sources; behavior
per §4.5 and the tests in `pkg/policy/attestation_test.go`). The linear
pipeline: fetch the payload (failure surfaced verbatim), unmarshal the
envelope (failure wrapped "unmarshaling payload data"), reject an empty
payload field ("could not find payload"), base64-decode the payload field
(failure wrapped "decoding payload"), and resolve the effective predicate
type — the statement's own declared type when present, else the
caller-supplied name through the registry. The context argument of the
source is unused internally and omitted here. -/
def AttestationToPayloadJSON (predicateType : String)
    (provider : PayloadProvider) : Except String (String × String) :=
  match provider.Payload with
  | Except.error e => Except.error e
  | Except.ok payload =>
    match unmarshalEnvelope payload with
    | Except.error e => Except.error ("unmarshaling payload data: " ++ e)
    | Except.ok env =>
      if env.payload = "" then Except.error "could not find payload"
      else
        match base64DecodeString env.payload with
        | Except.error e => Except.error ("decoding payload: " ++ e)
        | Except.ok decoded =>
          let stmt := bytesToString decoded
          match statementPredicateType stmt with
          | Except.error e => Except.error ("unmarshaling statement: " ++ e)
          | Except.ok (some declared) => Except.ok (stmt, declared)
          | Except.ok none => Except.ok (stmt, registryResolve predicateType)

/-- Append on strings is append on their character lists. -/
theorem strData_append (a b : String) : (a ++ b).data = a.data ++ b.data := rfl

/-- Containment of one string in another as a contiguous substring. -/
def strContains (s pat : String) : Prop :=
  ∃ pre post, s.data = pre ++ pat.data ++ post

theorem strContains_append_right (a b : String) : strContains (a ++ b) b :=
  ⟨a.data, [], by rw [strData_append]; simp⟩

theorem strContains_split (a1 a2 b : String) :
    strContains ((a1 ++ a2) ++ b) a1 :=
  ⟨[], a2.data ++ b.data, by rw [strData_append, strData_append]; simp⟩

/-- Claim C6: for every input byte sequence that is not a structurally
valid JSON envelope — including the empty input and truncated JSON such as
`{badness` — `AttestationToPayloadJSON` fails with an error whose message
contains "unmarshaling payload data" and includes the underlying parse
error. -/
theorem claim_C6 (hint b pe : String)
    (hb : unmarshalEnvelope b = Except.error pe) :
    AttestationToPayloadJSON hint { Payload := Except.ok b } =
      Except.error ("unmarshaling payload data: " ++ pe) ∧
    strContains ("unmarshaling payload data: " ++ pe)
      "unmarshaling payload data" ∧
    strContains ("unmarshaling payload data: " ++ pe) pe := by
  refine ⟨?_, ?_, strContains_append_right _ _⟩
  · simp only [AttestationToPayloadJSON, hb]
  · have hsplit : ("unmarshaling payload data: " : String) =
        "unmarshaling payload data" ++ ": " := rfl
    rw [hsplit]
    exact strContains_split _ _ _

/-- Claim C6 witness: the empty input and the truncated input `{badness`
each fail with an "unmarshaling payload data" error carrying the underlying
parse diagnostic. -/
theorem claim_C6_witness :
    (AttestationToPayloadJSON "custom" { Payload := Except.ok "" } =
      Except.error ("unmarshaling payload data: " ++
        "unexpected end of JSON input") ∧
     strContains ("unmarshaling payload data: " ++
        "unexpected end of JSON input") "unmarshaling payload data" ∧
     strContains ("unmarshaling payload data: " ++
        "unexpected end of JSON input") "unexpected end of JSON input") ∧
    (AttestationToPayloadJSON "custom" { Payload := Except.ok "\x7bbadness" } =
      Except.error ("unmarshaling payload data: " ++
        "invalid character looking for beginning of object key string") ∧
     strContains ("unmarshaling payload data: " ++
        "invalid character looking for beginning of object key string")
        "unmarshaling payload data" ∧
     strContains ("unmarshaling payload data: " ++
        "invalid character looking for beginning of object key string")
        "invalid character looking for beginning of object key string") :=
  ⟨claim_C6 "custom" "" "unexpected end of JSON input" rfl,
   claim_C6 "custom" "\x7bbadness"
     "invalid character looking for beginning of object key string" rfl⟩

/-- Claim C7: for every structurally valid envelope whose payload field is
absent or empty, `AttestationToPayloadJSON` fails with the distinct
"could not find payload" error, before any base64 decoding. -/
theorem claim_C7 (hint b : String) (env : Envelope)
    (hb : unmarshalEnvelope b = Except.ok env) (hp : env.payload = "") :
    AttestationToPayloadJSON hint { Payload := Except.ok b } =
      Except.error "could not find payload" := by
  simp only [AttestationToPayloadJSON, hb, hp, if_pos]

/-- Claim C7 witness: the input with a `payloadType` but no `payload` field
fails with "could not find payload". -/
theorem claim_C7_witness :
    AttestationToPayloadJSON "custom"
      { Payload := Except.ok "\x7b\"payloadType\":\"finebutnopayload\"\x7d" } =
      Except.error "could not find payload" :=
  claim_C7 "custom" "\x7b\"payloadType\":\"finebutnopayload\"\x7d"
    { payloadType := "finebutnopayload", payload := "" } rfl rfl

/-- Claim C8: for every envelope whose non-empty payload field is not valid
base64, `AttestationToPayloadJSON` fails with an error containing
"decoding payload" that wraps the underlying decode error. -/
theorem claim_C8 (hint b e : String) (env : Envelope)
    (hb : unmarshalEnvelope b = Except.ok env) (hp : env.payload ≠ "")
    (hd : base64DecodeString env.payload = Except.error e) :
    AttestationToPayloadJSON hint { Payload := Except.ok b } =
      Except.error ("decoding payload: " ++ e) ∧
    strContains ("decoding payload: " ++ e) "decoding payload" ∧
    strContains ("decoding payload: " ++ e) e := by
  refine ⟨?_, ?_, strContains_append_right _ _⟩
  · simp only [AttestationToPayloadJSON, hb, if_neg hp, hd]
  · have hsplit : ("decoding payload: " : String) =
        "decoding payload" ++ ": " := rfl
    rw [hsplit]
    exact strContains_split _ _ _

/-- Claim C8 witness: the well-formed envelope whose payload holds the
illegal base64 text `shou!ln'twork` fails with a "decoding payload" error
wrapping the decoder's diagnostic. -/
theorem claim_C8_witness :
    AttestationToPayloadJSON "custom"
      { Payload := Except.ok "\x7b\"payload\":\"shou!ln\x27twork\"\x7d" } =
      Except.error ("decoding payload: " ++
        "illegal base64 data at input byte 4") ∧
    strContains ("decoding payload: " ++ "illegal base64 data at input byte 4")
      "decoding payload" ∧
    strContains ("decoding payload: " ++ "illegal base64 data at input byte 4")
      "illegal base64 data at input byte 4" :=
  claim_C8 "custom" "\x7b\"payload\":\"shou!ln\x27twork\"\x7d"
    "illegal base64 data at input byte 4"
    { payloadType := "", payload := "shou!ln\x27twork" }
    rfl (by decide) rfl

/-- Claim C9: for every payload provider whose `Payload()` call returns an
error, `AttestationToPayloadJSON` returns that failure verbatim; no later
pipeline stage runs, so no other error message can replace it. -/
theorem claim_C9 (hint msg : String) :
    AttestationToPayloadJSON hint { Payload := Except.error msg } =
      Except.error msg := rfl

/-- Claim C4: for every attestation payload whose decoded inner statement
declares a `predicateType` that is recognized in the Predicate Type
Registry (a registry name or already a canonical URI),
`AttestationToPayloadJSON` returns that declared value as the effective
predicate type regardless of the caller-supplied name hint, and the
returned bytes are valid JSON parsing as a full in-toto statement
(a JSON object carrying that predicate type). -/
theorem claim_C4 (hint b : String) (env : Envelope) (bs : List Nat) (d : String)
    (h1 : unmarshalEnvelope b = Except.ok env)
    (h2 : env.payload ≠ "")
    (h3 : base64DecodeString env.payload = Except.ok bs)
    (h4 : statementPredicateType (bytesToString bs) = Except.ok (some d))
    (_h5 : (predicateTypeMap.lookup d).isSome = true ∨
      (predicateTypeMap.map Prod.snd).contains d = true) :
    AttestationToPayloadJSON hint { Payload := Except.ok b } =
      Except.ok (bytesToString bs, d) ∧
    ∃ fields, parseJSON (bytesToString bs) = Except.ok (JSON.obj fields) := by
  constructor
  · simp only [AttestationToPayloadJSON, h1, if_neg h2, h3, h4]
  · unfold statementPredicateType at h4
    cases hp : parseJSON (bytesToString bs) with
    | error e => rw [hp] at h4; exact Except.noConfusion h4
    | ok v =>
      cases v with
      | obj fields => exact ⟨fields, rfl⟩
      | null => rw [hp] at h4; exact Except.noConfusion h4
      | bool x => rw [hp] at h4; exact Except.noConfusion h4
      | num x => rw [hp] at h4; exact Except.noConfusion h4
      | str x => rw [hp] at h4; exact Except.noConfusion h4
      | arr x => rw [hp] at h4; exact Except.noConfusion h4

def c4Statement : String :=
  "\x7b\"_type\":\"https://in-toto.io/Statement/v0.1\",\"subject\":[\x7b\"name\":\"img\",\"digest\":\x7b\"sha256\":\"aa\"\x7d\x7d],\"predicateType\":\"https://cosign.sigstore.dev/attestation/v1\",\"predicate\":\x7b\"Data\":\"x\",\"Timestamp\":\"tt\"\x7d\x7d"

def c4Bytes : List Nat := c4Statement.data.map Char.toNat

def c4PayloadB64 : String :=
  "eyJfdHlwZSI6Imh0dHBzOi8vaW4tdG90by5pby9TdGF0ZW1lbnQvdjAuMSIsInN1YmplY3QiOlt7Im5hbWUiOiJpbWciLCJkaWdlc3QiOnsic2hhMjU2IjoiYWEifX1dLCJwcmVkaWNhdGVUeXBlIjoiaHR0cHM6Ly9jb3NpZ24uc2lnc3RvcmUuZGV2L2F0dGVzdGF0aW9uL3YxIiwicHJlZGljYXRlIjp7IkRhdGEiOiJ4IiwiVGltZXN0YW1wIjoidHQifX0="

def c4EnvelopeStr : String :=
  "\x7b\"payloadType\":\"application/vnd.in-toto+json\",\"payload\":\"" ++
    c4PayloadB64 ++ "\"\x7d"

set_option maxRecDepth 200000 in
/-- Claim C4 witness: a concrete envelope whose inner statement declares
the custom-provenance URI resolves to that URI even under the conflicting
caller hint "vuln", and its returned bytes parse as a JSON object. -/
theorem claim_C4_witness :
    AttestationToPayloadJSON "vuln" { Payload := Except.ok c4EnvelopeStr } =
      Except.ok (bytesToString c4Bytes, CosignCustomProvenanceV01) ∧
    ∃ fields, parseJSON (bytesToString c4Bytes) = Except.ok (JSON.obj fields) :=
  claim_C4 "vuln" c4EnvelopeStr
    { payloadType := "application/vnd.in-toto+json", payload := c4PayloadB64 }
    c4Bytes CosignCustomProvenanceV01 rfl (by decide) rfl rfl (by decide)

/-- Claim C5: for every attestation byte sequence, running
`AttestationToPayloadJSON` with a full static Signing Artifact constructed
from those bytes and with a minimal payload provider returning the same
bytes produces identical results — on valid bytes, the identical JSON
output and the identical resolved predicate type. -/
theorem claim_C5 (b b64sig hint j t : String) (s : StaticSignature)
    (hs : static.NewSignature b b64sig = Except.ok s)
    (hvalid : AttestationToPayloadJSON hint { Payload := Except.ok b } =
      Except.ok (j, t)) :
    AttestationToPayloadJSON hint s.toProvider = Except.ok (j, t) ∧
    AttestationToPayloadJSON hint s.toProvider =
      AttestationToPayloadJSON hint { Payload := Except.ok b } := by
  have hs' : s = { rawBytes := b, base64Sig := b64sig } := by
    injection hs with h
    exact h.symm
  subst hs'
  refine ⟨?_, ?_⟩
  · show AttestationToPayloadJSON hint { Payload := Except.ok b } = _
    exact hvalid
  · show AttestationToPayloadJSON hint { Payload := Except.ok b } = _
    rfl

def c5Statement : String :=
  "\x7b\"_type\":\"https://in-toto.io/Statement/v0.1\",\"subject\":[\x7b\"name\":\"img\"\x7d],\"predicateType\":\"https://cosign.sigstore.dev/attestation/vuln/v1\",\"predicate\":\x7b\"scanner\":\x7b\"uri\":\"pkg:scanner\"\x7d,\"metadata\":\x7b\"scanFinishedOn\":\"2022\"\x7d\x7d\x7d"

def c5Bytes : List Nat := c5Statement.data.map Char.toNat

def c5PayloadB64 : String :=
  "eyJfdHlwZSI6Imh0dHBzOi8vaW4tdG90by5pby9TdGF0ZW1lbnQvdjAuMSIsInN1YmplY3QiOlt7Im5hbWUiOiJpbWcifV0sInByZWRpY2F0ZVR5cGUiOiJodHRwczovL2Nvc2lnbi5zaWdzdG9yZS5kZXYvYXR0ZXN0YXRpb24vdnVsbi92MSIsInByZWRpY2F0ZSI6eyJzY2FubmVyIjp7InVyaSI6InBrZzpzY2FubmVyIn0sIm1ldGFkYXRhIjp7InNjYW5GaW5pc2hlZE9uIjoiMjAyMiJ9fX0="

def c5EnvelopeStr : String :=
  "\x7b\"payloadType\":\"application/vnd.in-toto+json\",\"payload\":\"" ++
    c5PayloadB64 ++ "\"\x7d"

set_option maxRecDepth 200000 in
/-- Claim C5 witness: on a concrete valid vuln attestation, the run through
the full static artifact and the run through the minimal provider agree,
both returning the decoded statement and the vuln-provenance URI. -/
theorem claim_C5_witness :
    AttestationToPayloadJSON "vuln"
      (StaticSignature.toProvider { rawBytes := c5EnvelopeStr, base64Sig := "" }) =
      Except.ok (bytesToString c5Bytes, CosignVulnProvenanceV01) ∧
    AttestationToPayloadJSON "vuln"
      (StaticSignature.toProvider { rawBytes := c5EnvelopeStr, base64Sig := "" }) =
      AttestationToPayloadJSON "vuln" { Payload := Except.ok c5EnvelopeStr } :=
  claim_C5 c5EnvelopeStr "" "vuln" (bytesToString c5Bytes)
    CosignVulnProvenanceV01
    { rawBytes := c5EnvelopeStr, base64Sig := "" } rfl (by rfl)

/-- A string over the base64 alphabet whose length is not a multiple of
four is rejected by the padded standard decoder with an
"illegal base64 data" error: the decoder accepts no unpadded final
quantum. -/
theorem base64DecodeQuads_unpadded : ∀ (pos : Nat) (l : List Char),
    (∀ c ∈ l, (base64Index c).isSome = true) → l.length % 4 ≠ 0 →
    ∃ k, base64DecodeQuads pos l = Except.error (illegalBase64At k)
  | _, [], _, hlen => (hlen rfl).elim
  | pos, c1 :: c2 :: c3 :: c4 :: rest, hlegal, hlen => by
    obtain ⟨i1, hi1⟩ := Option.isSome_iff_exists.1 (hlegal c1 (by simp))
    obtain ⟨i2, hi2⟩ := Option.isSome_iff_exists.1 (hlegal c2 (by simp))
    obtain ⟨i3, hi3⟩ := Option.isSome_iff_exists.1 (hlegal c3 (by simp))
    obtain ⟨i4, hi4⟩ := Option.isSome_iff_exists.1 (hlegal c4 (by simp))
    have hc3 : c3 ≠ '=' := by
      intro h
      rw [h] at hi3
      simp [base64Index] at hi3
    have hc4 : c4 ≠ '=' := by
      intro h
      rw [h] at hi4
      simp [base64Index] at hi4
    have hrest : rest.length % 4 ≠ 0 := by
      intro h
      apply hlen
      simp only [List.length_cons]
      omega
    obtain ⟨k, hk⟩ := base64DecodeQuads_unpadded (pos + 4) rest
      (fun c hc => hlegal c (by simp [hc])) hrest
    refine ⟨k, ?_⟩
    simp only [base64DecodeQuads, hi1, hi2, if_neg hc3, hi3, if_neg hc4, hi4, hk]
  | pos, [_], _, _ => ⟨pos, rfl⟩
  | pos, [_, _], _, _ => ⟨pos, rfl⟩
  | pos, [_, _, _], _, _ => ⟨pos, rfl⟩

/-- Claim C10: the pipeline decodes the envelope's payload with the padded
standard base64 encoding: every payload field over the base64 alphabet that
lacks the required padding (length not a multiple of four) fails with an
error containing "decoding payload: illegal base64" instead of being
accepted under the raw (unpadded) interpretation. -/
theorem claim_C10 (hint b : String) (env : Envelope)
    (h1 : unmarshalEnvelope b = Except.ok env)
    (h2 : ∀ c ∈ env.payload.data, (base64Index c).isSome = true)
    (h3 : env.payload.length % 4 ≠ 0) :
    ∃ k, AttestationToPayloadJSON hint { Payload := Except.ok b } =
      Except.error ("decoding payload: " ++ illegalBase64At k) ∧
      strContains ("decoding payload: " ++ illegalBase64At k)
        "decoding payload: illegal base64" := by
  have hdata : env.payload.data.length % 4 ≠ 0 := h3
  have hne : env.payload ≠ "" := by
    intro h
    rw [h] at hdata
    simp at hdata
  obtain ⟨k, hk⟩ := base64DecodeQuads_unpadded 0 env.payload.data h2 hdata
  refine ⟨k, ?_, ?_⟩
  · simp only [AttestationToPayloadJSON, h1, if_neg hne, base64DecodeString, hk]
  · refine ⟨[], (" data at input byte " ++ toString k).data, ?_⟩
    show ("decoding payload: " ++ illegalBase64At k).data = _
    rw [strData_append]
    unfold illegalBase64At
    rw [strData_append, strData_append]
    have hsplit : ("decoding payload: " : String).data ++
        ("illegal base64 data at input byte " : String).data =
        ("decoding payload: illegal base64" : String).data ++
        (" data at input byte " : String).data := by decide
    simp only [← List.append_assoc, hsplit, List.nil_append]

def invalidTotoStatement : String :=
  "\x7b\"payloadType\":\"application/vnd.in-toto+json\",\"payload\":\"bm90dG90b3N0YXRlbWVudAo\"\x7d"

set_option maxRecDepth 100000 in
/-- Claim C10 witness: the envelope carrying the valid-but-unpadded base64
payload `bm90dG90b3N0YXRlbWVudAo` fails with a
"decoding payload: illegal base64" error. -/
theorem claim_C10_witness :
    ∃ k, AttestationToPayloadJSON "custom"
      { Payload := Except.ok invalidTotoStatement } =
      Except.error ("decoding payload: " ++ illegalBase64At k) ∧
      strContains ("decoding payload: " ++ illegalBase64At k)
        "decoding payload: illegal base64" :=
  claim_C10 "custom" invalidTotoStatement
    { payloadType := "application/vnd.in-toto+json"
      payload := "bm90dG90b3N0YXRlbWVudAo" }
    rfl (by decide) (by decide)

end Cosign
